import Mathlib

/-!
Verification development for the BVVRefTool reconciliation engine.

The Python data model is embedded shallowly: a pandas DataFrame row becomes a
Lean structure whose fields are `Option`-valued (`none` models a null/NaN
cell), a DataFrame becomes a `List` of such rows, and each container's
`update`/`save`/`insert_course_id` method becomes a pure Lean function on
those lists.  Conventions used throughout, matching pandas semantics:

* `pd.merge` matches join keys structurally, with NaN keys matching NaN keys;
  we model this with plain decidable equality of the `Option`-valued keys.
* Element-wise comparisons (`==`/`!=` on columns, as used for change
  detection) treat NaN as unequal to everything, including NaN itself; this
  is `pdEq`/`pdNe` below.
* Type coercions done by `validate_data` (string/date/number casts) are
  modelled as the identity: the embedding works directly with typed cells.
* Final cosmetic `sort_values` calls that only reorder rows are omitted; all
  properties proved here are insensitive to row order.
-/

/-- A calendar date (pandas `datetime`/`date` values), compared
lexicographically by year, month, day. -/
structure SDate where
  year : Int
  month : Int
  day : Int
deriving DecidableEq, Repr

/-- Chronological strict order on dates (Boolean, lexicographic). -/
def SDate.ltb (a b : SDate) : Bool :=
  a.year < b.year ||
    (a.year == b.year && (a.month < b.month ||
      (a.month == b.month && a.day < b.day)))

/-- pandas element-wise `==` on two cells: true only when both cells are
non-null and equal (NaN == NaN is false in pandas). -/
def pdEq {α} [DecidableEq α] : Option α → Option α → Bool
  | some x, some y => decide (x = y)
  | _, _ => false

/-- pandas element-wise `!=` on two cells (NaN != anything is true). -/
def pdNe {α} [DecidableEq α] (a b : Option α) : Bool := !pdEq a b

/-- The overwrite rule shared by all three `update` methods: the incoming
value replaces the existing one only when it is non-null
(`merged_df.loc[condition, column] = merged_df.loc[condition, column + '_update']`
under `condition = ~isna`). -/
def ow {α} (old new : Option α) : Option α :=
  match new with
  | some v => some v
  | none => old

/-- Fill a null cell with a default value (`fillna`). -/
def fillD {α} (x : Option α) (d : α) : Option α :=
  match x with
  | some v => some v
  | none => some d

/-- The `_merge` indicator column produced by `pd.merge(..., indicator=True)`. -/
inductive MergeTag where
  | leftOnly
  | rightOnly
  | both
deriving DecidableEq, Repr

/-! ## RegistrationContainer -/

/-- One row of the registrations dataset
(`RegistrationContainer.get_data_types`). -/
structure RegRow where
  course_id : Option String
  course_label : Option String
  last_name : Option String
  first_name : Option String
  birthday : Option SDate
  registration_status : Option String
  participation_status : Option String
  waiting_position : Option Int
  confirmation_status : Option String
  status : Option String
deriving DecidableEq, Repr

/-- One row of an incoming registrations snapshot as delivered by
`BVVScalper.get_registrations` (columns `course_label–waiting_position`). -/
structure RegInRow where
  course_label : Option String
  last_name : Option String
  first_name : Option String
  birthday : Option SDate
  registration_status : Option String
  participation_status : Option String
  waiting_position : Option Int
deriving DecidableEq, Repr

/-- The registration key columns (`keys = ['course_label', 'last_name',
'first_name', 'birthday']`). -/
def regKey (r : RegRow) : Option String × Option String × Option String × Option SDate :=
  (r.course_label, r.last_name, r.first_name, r.birthday)

/-- Key tuple of an incoming snapshot row. -/
def regInKey (m : RegInRow) : Option String × Option String × Option String × Option SDate :=
  (m.course_label, m.last_name, m.first_name, m.birthday)

/-- Projection of a dataset row to the snapshot columns
(`old_cancelled_registrations[df.columns.tolist()]`). -/
def regProj (r : RegRow) : RegInRow :=
  { course_label := r.course_label, last_name := r.last_name,
    first_name := r.first_name, birthday := r.birthday,
    registration_status := r.registration_status,
    participation_status := r.participation_status,
    waiting_position := r.waiting_position }

/-- Does a snapshot-shaped row have every cell non-null?  `value_counts()`
drops any row that contains a NaN, so only such rows take part in the
multiset subtraction of already-known cancelled registrations. -/
def regAllSome (m : RegInRow) : Bool :=
  m.course_label.isSome && m.last_name.isSome && m.first_name.isSome &&
    m.birthday.isSome && m.registration_status.isSome &&
    m.participation_status.isSome && m.waiting_position.isSome

/-- Remove the first occurrence of `v` from the list
(`df = df.drop(idx[0])` for the first index matching the row value). -/
def removeFirst {α} [DecidableEq α] (v : α) : List α → List α
  | [] => []
  | x :: xs => if x = v then xs else x :: removeFirst v xs

/-- Multiset subtraction of the already-known cancelled registrations from the
incoming snapshot (`RegistrationContainer.update`, the `old_counts` loop):
for each existing cancelled row whose snapshot projection is fully non-null,
drop one snapshot row that equals it cell-for-cell.  Iterating row by row is
equivalent to the `value_counts` dictionary of the source because rows equal
to distinct fully-non-null values are disjoint. -/
def subtractCancelled (cancelled : List RegRow) (s : List RegInRow) : List RegInRow :=
  cancelled.foldl
    (fun acc c => if regAllSome (regProj c) then removeFirst (regProj c) acc else acc) s

/-- A row of the outer merge of the dataset with the snapshot: the dataset
columns, the three `_update` columns contributed by the snapshot, and the
`_merge` indicator. -/
structure RegMergedRow where
  row : RegRow
  ru : Option String
  pu : Option String
  wu : Option Int
  tag : MergeTag
deriving DecidableEq, Repr

/-- Snapshot rows matching a dataset row on the key columns. -/
def regMatches (right : List RegInRow) (l : RegRow) : List RegInRow :=
  right.filter (fun m => decide (regInKey m = regKey l))

/-- The dataset-side cells of a merge row that exists only in the snapshot:
key columns are taken from the snapshot, all other dataset columns are null. -/
def regRightRow (m : RegInRow) : RegRow :=
  { course_id := none, course_label := m.course_label, last_name := m.last_name,
    first_name := m.first_name, birthday := m.birthday,
    registration_status := none, participation_status := none,
    waiting_position := none, confirmation_status := none, status := none }

/-- `pd.merge(old_not_cancelled_registrations, df[keys + columns_to_update],
on=keys, how='outer', suffixes=('', '_update'), indicator=True)`.  Every
dataset row is paired with each key-matching snapshot row (tag `both`) or
kept alone with null `_update` cells (tag `left_only`); unmatched snapshot
rows follow with null dataset cells (tag `right_only`).  pandas additionally
sorts an outer merge by key; that reordering is irrelevant to the properties
proved here and is not modelled. -/
def regMerge (left : List RegRow) (right : List RegInRow) : List RegMergedRow :=
  left.flatMap (fun l =>
    match regMatches right l with
    | [] => [⟨l, none, none, none, .leftOnly⟩]
    | ms => ms.map (fun m =>
        ⟨l, m.registration_status, m.participation_status, m.waiting_position, .both⟩))
  ++ (right.filter (fun m => !left.any (fun l => decide (regKey l = regInKey m)))).map
      (fun m =>
        ⟨regRightRow m, m.registration_status, m.participation_status, m.waiting_position,
          .rightOnly⟩)

/-- `changed_condition`: the row is present on both sides and its
participation status or registration status differs element-wise from the
incoming value, or the row was manually pre-marked `changed`.  Evaluated on
the dataset cells before the overwrite step, exactly as in the source. -/
def regChangedCond (mr : RegMergedRow) : Bool :=
  mr.tag == .both &&
    (pdNe mr.row.participation_status mr.pu ||
     pdNe mr.row.registration_status mr.ru ||
     mr.row.status == some "changed")

/-- The overwrite loop over `columns_to_update = [registration_status,
participation_status, waiting_position]`. -/
def regApplyUpdates (mr : RegMergedRow) : RegMergedRow :=
  { mr with row :=
    { mr.row with
      registration_status := ow mr.row.registration_status mr.ru,
      participation_status := ow mr.row.participation_status mr.pu,
      waiting_position := ow mr.row.waiting_position mr.wu } }

/-- Is every dataset cell of the merge row non-null? -/
def regRowAllSome (r : RegRow) : Bool :=
  r.course_id.isSome && r.course_label.isSome && r.last_name.isSome &&
    r.first_name.isSome && r.birthday.isSome && r.registration_status.isSome &&
    r.participation_status.isSome && r.waiting_position.isSome &&
    r.confirmation_status.isSome && r.status.isSome

/-- The re-flagging step (`merged_df['_merge'] = merged_df.apply(...)`):
a merge row is re-tagged `both` when its full dataset tuple, compared
element-wise (so only when every cell is non-null), coincides with an
already-known cancelled row.  `common_rows` is the inner merge of the merged
frame with the cancelled rows on all dataset columns, so membership in it is
exactly that coincidence. -/
def regReflag (cancelled : List RegRow) (mr : RegMergedRow) : RegMergedRow :=
  if regRowAllSome mr.row && cancelled.any (fun c => decide (c = mr.row)) then
    { mr with tag := .both }
  else mr

/-- `merged_df.loc[newly_added_condition & (participation_status == "pending"),
"confirmation_status"] = "pending"`. -/
def regSetConfirmation (mr : RegMergedRow) : RegMergedRow :=
  if mr.tag == .rightOnly && mr.row.participation_status == some "pending" then
    { mr with row := { mr.row with confirmation_status := some "pending" } }
  else mr

/-- The status assignment block: `unchanged` everywhere, then `changed` on
`changed_condition`, then `added` on `right_only`, then `removed` on
`left_only` (each later assignment overriding the earlier ones; the three
tags are mutually exclusive). -/
def regSetStatus (changed : Bool) (mr : RegMergedRow) : RegRow :=
  { mr.row with status :=
      (if mr.tag == .leftOnly then some "removed"
       else if mr.tag == .rightOnly then some "added"
       else if changed then some "changed"
       else some "unchanged") }

/-- The per-row pipeline of `RegistrationContainer.update` applied to one
merge row: record `changed_condition` (before the overwrite), overwrite the
updatable columns, re-flag against the cancelled rows, set the confirmation
status of newly added pending rows, and assign the lifecycle status. -/
def regPipelineRow (cancelled : List RegRow) (mr : RegMergedRow) : RegRow :=
  regSetStatus (regChangedCond mr) (regSetConfirmation (regReflag cancelled (regApplyUpdates mr)))

/-- The computational core of `RegistrationContainer.update` on a snapshot
that carries all expected columns: partition the dataset by
`registration_status == "cancelled"` (pandas `!=` keeps null statuses on the
not-cancelled side), subtract known cancelled rows from the snapshot, merge,
run the per-row pipeline, and append the cancelled rows with status reset to
`unchanged`. -/
def regUpdateCore (data : List RegRow) (df : List RegInRow) : List RegRow :=
  let oldNotCancelled := data.filter (fun r => !decide (r.registration_status = some "cancelled"))
  let oldCancelled := data.filter (fun r => decide (r.registration_status = some "cancelled"))
  let df1 := subtractCancelled oldCancelled df
  let merged := regMerge oldNotCancelled df1
  merged.map (regPipelineRow oldCancelled)
    ++ oldCancelled.map (fun c => { c with status := some "unchanged" })

/-- The registration key column names. -/
def regKeyColumns : List String := ["course_label", "last_name", "first_name", "birthday"]

/-- An incoming snapshot together with the set of columns it actually
carries (a pandas DataFrame knows its columns; a missing key column makes
the column selection `df[keys + columns_to_update]` raise). -/
structure RegSnap where
  cols : List String
  rows : List RegInRow
deriving DecidableEq, Repr

/-- Structural failure of an update: the incoming snapshot is missing a key
column.  In the Python source this surfaces as a `KeyError` from the column
selection in `RegistrationContainer.update` and as a `ValueError` from the
explicit check in `CourseContainer.update`; the specification groups both
under `SchemaError`. -/
inductive SchemaError where
  | missingKeyColumn
deriving DecidableEq, Repr

namespace RegistrationContainer

/-- `RegistrationContainer.update`: fails before touching the dataset when
the snapshot is missing a key column, otherwise runs the merge core. -/
def update (data : List RegRow) (s : RegSnap) : Except SchemaError (List RegRow) :=
  if regKeyColumns.all (fun k => s.cols.contains k) then
    .ok (regUpdateCore data s.rows)
  else
    .error .missingKeyColumn

/-- The container state after calling `update`: the new merged dataset on
success, the previous dataset untouched when the call raises. -/
def runUpdate (data : List RegRow) (s : RegSnap) : List RegRow :=
  match update data s with
  | .ok d => d
  | .error _ => data

/-- Normalization applied to each kept row by `RegistrationContainer.save`:
status is reset to the default `unchanged`, and a confirmation status outside
`{confirmed, denied, pending}` (including null) is forced to `pending`. -/
def saveRow (r : RegRow) : RegRow :=
  let r1 := { r with status := some "unchanged" }
  if r1.confirmation_status = some "confirmed" ∨ r1.confirmation_status = some "denied" ∨
      r1.confirmation_status = some "pending" then
    r1
  else
    { r1 with confirmation_status := some "pending" }

/-- `RegistrationContainer.save` as a dataset transformation: drop rows with
status `removed` (a null status is kept, as pandas `!=` is true on NaN),
then normalize every remaining row.  The final multi-column `sort_values`
only reorders rows and is not modelled. -/
def save (data : List RegRow) : List RegRow :=
  (data.filter (fun r => !decide (r.status = some "removed"))).map saveRow

end RegistrationContainer

example : pdEq (some 3) (some 3) = true := by decide
example : pdNe (none : Option Int) none = true := by decide

/-! ## CourseContainer -/

/-- One row of the courses dataset (`CourseContainer.get_data_types`). -/
structure CourseRow where
  id : Option String
  district : Option String
  label : Option String
  type : Option String
  date_start : Option SDate
  date_end : Option SDate
  license_category : Option String
  license_type : Option String
  registration_start : Option SDate
  registration_end : Option SDate
  reregistration_end : Option SDate
  deregistration_end : Option SDate
  free_space : Option Int
  granted_space : Option Int
  waiting_count : Option Int
  city : Option String
  address : Option String
  remark : Option String
  contact_name : Option String
  contact_mail : Option String
  contact_phone : Option String
  contact_mobile : Option String
  management_reminder_count : Option Int
  player_reminder_count : Option Int
deriving DecidableEq, Repr

/-- The course column names, in the order declared by
`CourseContainer.get_data_types`.  Note that the course schema carries no
lifecycle `status` column. -/
def courseColumns : List String :=
  ["id", "district", "label", "type", "date_start", "date_end",
   "license_category", "license_type", "registration_start", "registration_end",
   "reregistration_end", "deregistration_end", "free_space", "granted_space",
   "waiting_count", "city", "address", "remark", "contact_name", "contact_mail",
   "contact_phone", "contact_mobile", "management_reminder_count",
   "player_reminder_count"]

/-- A course row with every cell null (the dataset side of a merge row that
exists only in the snapshot, before the key column is copied back in). -/
def emptyCourseRow : CourseRow :=
  { id := none, district := none, label := none, type := none, date_start := none,
    date_end := none, license_category := none, license_type := none,
    registration_start := none, registration_end := none, reregistration_end := none,
    deregistration_end := none, free_space := none, granted_space := none,
    waiting_count := none, city := none, address := none, remark := none,
    contact_name := none, contact_mail := none, contact_phone := none,
    contact_mobile := none, management_reminder_count := none,
    player_reminder_count := none }

/-- A row of the outer merge of the course dataset with an incoming course
snapshot: the dataset cells, the `_update` cells contributed by the snapshot
(every column except the key `id`; the `id` field of `up` is unused), and
the `_merge` indicator. -/
structure CourseMergedRow where
  row : CourseRow
  up : CourseRow
  tag : MergeTag
deriving DecidableEq, Repr

/-- Snapshot rows matching a dataset row on the key column `id`. -/
def courseMatches (right : List CourseRow) (l : CourseRow) : List CourseRow :=
  right.filter (fun m => decide (m.id = l.id))

/-- `pd.merge(self.data, df[keys + columns_to_update], on=["id"], how='outer',
suffixes=('', '_update'), indicator=True)` for courses. -/
def courseMerge (left right : List CourseRow) : List CourseMergedRow :=
  left.flatMap (fun l =>
    match courseMatches right l with
    | [] => [⟨l, emptyCourseRow, .leftOnly⟩]
    | ms => ms.map (fun m => ⟨l, m, .both⟩))
  ++ (right.filter (fun m => !left.any (fun l => decide (l.id = m.id)))).map
      (fun m => ⟨{ emptyCourseRow with id := m.id }, m, .rightOnly⟩)

/-- The overwrite loop of `CourseContainer.update` over
`columns_to_update` (all columns except the key `id`): each existing cell is
replaced by the incoming cell only when the incoming cell is non-null. -/
def courseApplyUpdates (mr : CourseMergedRow) : CourseMergedRow :=
  { mr with row :=
    { mr.row with
      district := ow mr.row.district mr.up.district,
      label := ow mr.row.label mr.up.label,
      type := ow mr.row.type mr.up.type,
      date_start := ow mr.row.date_start mr.up.date_start,
      date_end := ow mr.row.date_end mr.up.date_end,
      license_category := ow mr.row.license_category mr.up.license_category,
      license_type := ow mr.row.license_type mr.up.license_type,
      registration_start := ow mr.row.registration_start mr.up.registration_start,
      registration_end := ow mr.row.registration_end mr.up.registration_end,
      reregistration_end := ow mr.row.reregistration_end mr.up.reregistration_end,
      deregistration_end := ow mr.row.deregistration_end mr.up.deregistration_end,
      free_space := ow mr.row.free_space mr.up.free_space,
      granted_space := ow mr.row.granted_space mr.up.granted_space,
      waiting_count := ow mr.row.waiting_count mr.up.waiting_count,
      city := ow mr.row.city mr.up.city,
      address := ow mr.row.address mr.up.address,
      remark := ow mr.row.remark mr.up.remark,
      contact_name := ow mr.row.contact_name mr.up.contact_name,
      contact_mail := ow mr.row.contact_mail mr.up.contact_mail,
      contact_phone := ow mr.row.contact_phone mr.up.contact_phone,
      contact_mobile := ow mr.row.contact_mobile mr.up.contact_mobile,
      management_reminder_count :=
        ow mr.row.management_reminder_count mr.up.management_reminder_count,
      player_reminder_count :=
        ow mr.row.player_reminder_count mr.up.player_reminder_count } }

/-- `filled_subset = subset.fillna(data_defaults)` applied to the rows tagged
`right_only`: newly added courses get their reminder counters defaulted to 0
(`CourseContainer._get_data_defaults`). -/
def courseFillDefaults (mr : CourseMergedRow) : CourseMergedRow :=
  if mr.tag == .rightOnly then
    { mr with row :=
      { mr.row with
        management_reminder_count := fillD mr.row.management_reminder_count 0,
        player_reminder_count := fillD mr.row.player_reminder_count 0 } }
  else mr

/-- The computational core of `CourseContainer.update`: outer-merge on `id`,
overwrite non-null incoming cells, default-fill newly added rows.  Returns
the new dataset together with the newly added rows (the method's return
value).  The cosmetic `sort_values` calls only reorder rows and are not
modelled. -/
def courseUpdateCore (data df : List CourseRow) : List CourseRow × List CourseRow :=
  let merged := (courseMerge data df).map (fun mr => courseFillDefaults (courseApplyUpdates mr))
  (merged.map (fun mr => mr.row),
   (merged.filter (fun mr => mr.tag == .rightOnly)).map (fun mr => mr.row))

/-- An incoming course snapshot with the set of columns it carries. -/
structure CourseSnap where
  cols : List String
  rows : List CourseRow
deriving DecidableEq, Repr

namespace CourseContainer

/-- `CourseContainer.update`: raises (modelled as `SchemaError`; a
`ValueError` in the source) when the snapshot has no `id` column, before the
dataset is touched; otherwise runs the merge core. -/
def update (data : List CourseRow) (s : CourseSnap) :
    Except SchemaError (List CourseRow × List CourseRow) :=
  if s.cols.contains "id" then
    .ok (courseUpdateCore data s.rows)
  else
    .error .missingKeyColumn

/-- The container state after calling `update`: the new merged dataset on
success, the previous dataset untouched when the call raises. -/
def runUpdate (data : List CourseRow) (s : CourseSnap) : List CourseRow :=
  match update data s with
  | .ok d => d.1
  | .error _ => data

end CourseContainer

namespace RegistrationContainer

/-- `RegistrationContainer.insert_course_id`: restrict the course table to
`id`/`label`, rename to the registration naming convention, and inner-merge
the registrations with it on `course_label`, replacing each old `course_id`
with the id of the matching course.  A registration whose label matches no
course is dropped; one whose label matches several courses is repeated once
per match (inner-merge row multiplication). -/
def insert_course_id (data : List RegRow) (courses : List CourseRow) : List RegRow :=
  data.flatMap (fun r =>
    (courses.filter (fun c => decide (c.label = r.course_label))).map
      (fun c => { r with course_id := c.id }))

end RegistrationContainer

/-! ## PersonContainer -/

/-- One row of the persons dataset (`PersonContainer.get_data_types`). -/
structure PersonRow where
  last_name : Option String
  first_name : Option String
  birthday : Option SDate
  sex : Option String
  street : Option String
  postalcode : Option String
  city : Option String
  phone : Option String
  mobile : Option String
  mail : Option String
  license_category : Option String
  license_type : Option String
  license_id : Option String
  license_bvv_id : Option String
  license_since : Option SDate
  license_expire : Option SDate
  club : Option String
  club_membership_expire : Option SDate
  club_team : Option String
  wants_higher_license : Option Bool
  help_count : Option Int
  failed_higher_license_count : Option Int
deriving DecidableEq, Repr

/-- One row of an incoming license snapshot as delivered by
`BVVScalper.get_licenses` (the default `df` of `PersonContainer.update`):
the three key columns plus thirteen data columns. -/
structure LicenseRow where
  last_name : Option String
  first_name : Option String
  birthday : Option SDate
  phone : Option String
  mobile : Option String
  mail : Option String
  street : Option String
  postalcode : Option String
  city : Option String
  license_category : Option String
  license_type : Option String
  license_id : Option String
  license_bvv_id : Option String
  license_since : Option SDate
  license_expire : Option SDate
  club : Option String
deriving DecidableEq, Repr

/-- A row of the outer merge of the persons dataset with a license snapshot
(`pd.merge(self.data, df[keys + columns_to_update], ...)` in
`PersonContainer.update`). -/
structure PersonMergedRow where
  row : PersonRow
  up : LicenseRow
  tag : MergeTag
deriving DecidableEq, Repr

/-- The overwrite loop of `PersonContainer.update` over the thirteen
updatable license-snapshot columns: each existing cell is replaced by the
incoming cell only when the incoming cell is non-null. -/
def personApplyUpdates (mr : PersonMergedRow) : PersonMergedRow :=
  { mr with row :=
    { mr.row with
      phone := ow mr.row.phone mr.up.phone,
      mobile := ow mr.row.mobile mr.up.mobile,
      mail := ow mr.row.mail mr.up.mail,
      street := ow mr.row.street mr.up.street,
      postalcode := ow mr.row.postalcode mr.up.postalcode,
      city := ow mr.row.city mr.up.city,
      license_category := ow mr.row.license_category mr.up.license_category,
      license_type := ow mr.row.license_type mr.up.license_type,
      license_id := ow mr.row.license_id mr.up.license_id,
      license_bvv_id := ow mr.row.license_bvv_id mr.up.license_bvv_id,
      license_since := ow mr.row.license_since mr.up.license_since,
      license_expire := ow mr.row.license_expire mr.up.license_expire,
      club := ow mr.row.club mr.up.club } }

/-! ### Deduplication (`helpfunctions.remove_duplicates`) -/

/-- `row.count()`: the number of non-null cells of a license-snapshot row. -/
def countSome (r : LicenseRow) : Nat :=
  (if r.last_name.isSome then 1 else 0) + (if r.first_name.isSome then 1 else 0) +
  (if r.birthday.isSome then 1 else 0) + (if r.phone.isSome then 1 else 0) +
  (if r.mobile.isSome then 1 else 0) + (if r.mail.isSome then 1 else 0) +
  (if r.street.isSome then 1 else 0) + (if r.postalcode.isSome then 1 else 0) +
  (if r.city.isSome then 1 else 0) + (if r.license_category.isSome then 1 else 0) +
  (if r.license_type.isSome then 1 else 0) + (if r.license_id.isSome then 1 else 0) +
  (if r.license_bvv_id.isSome then 1 else 0) + (if r.license_since.isSome then 1 else 0) +
  (if r.license_expire.isSome then 1 else 0) + (if r.club.isSome then 1 else 0)

/-- The default dedup key `subset = ["last_name", "first_name", "birthday"]`.
pandas `duplicated`/`drop_duplicates` treat NaN keys as equal, hence plain
structural equality of the `Option`-valued cells. -/
def dedupKey (r : LicenseRow) : Option String × Option String × Option SDate :=
  (r.last_name, r.first_name, r.birthday)

/-- A null cell sorts last (`na_position='last'`), a non-null cell by its
value. -/
def optTop {α} : Option α → WithTop α
  | none => ⊤
  | some v => (v : WithTop α)

/-- A date as a lexicographic triple, for the sort key. -/
def sdKey (d : SDate) : Lex (Int × Lex (Int × Int)) :=
  toLex (d.year, toLex (d.month, d.day))

/-- The lexicographic sort key of
`gf.sort_values(by=subset + ["non_null_count"], ascending=[True, True, True, False])`:
the three dedup-key columns ascending with nulls last, then the non-null
count descending. -/
def sortKey (p : LicenseRow × Nat) :
    Lex (WithTop String × Lex (WithTop String ×
      Lex (WithTop (Lex (Int × Lex (Int × Int))) × Natᵒᵈ))) :=
  toLex (optTop p.1.last_name, toLex (optTop p.1.first_name,
    toLex (optTop (p.1.birthday.map sdKey), OrderDual.toDual p.2)))

/-- The Boolean comparator realizing that sort.  pandas sorts on several
columns with a stable lexicographic sort, realized below with the (stable)
`List.mergeSort`. -/
def dedupLe (a b : LicenseRow × Nat) : Bool :=
  decide (sortKey a ≤ sortKey b)

/-- `drop_duplicates(subset=subset, keep="first")`: keep the first row of
each dedup-key group, scanning left to right (`seen` accumulates the keys
already kept). -/
def dropDupFirst :
    List (LicenseRow × Nat) → List (Option String × Option String × Option SDate) →
      List (LicenseRow × Nat)
  | [], _ => []
  | x :: xs, seen =>
    if seen.contains (dedupKey x.1) then dropDupFirst xs seen
    else x :: dropDupFirst xs (dedupKey x.1 :: seen)

/-- `helpfunctions.remove_duplicates` with the default subset: attach the
non-null count to each row, sort stably by dedup key (ascending, nulls last)
and count (descending), keep the first row per key, and drop the count
column.  Writing the duplicates to a backup csv is I/O and is not
modelled. -/
def remove_duplicates (df : List LicenseRow) : List LicenseRow :=
  let gf := df.map (fun r => (r, countSome r))
  let gf_sorted := gf.mergeSort dedupLe
  (dropDupFirst gf_sorted []).map (fun p => p.1)

/-! ### Membership window (`PersonContainer.update_membership`) -/

/-- One row of the externally supplied club member list. -/
structure MemberRow where
  last_name : Option String
  first_name : Option String
  birthday : Option SDate
  club_membership_expire : Option SDate
deriving DecidableEq, Repr

/-- The half-year buckets computed at the top of
`PersonContainer.update_membership`: current and previous timeframe end. -/
def membershipWindow (today : SDate) : SDate × SDate :=
  if today.month ≤ 6 then
    (⟨today.year, 7, 31⟩, ⟨today.year - 1, 12, 31⟩)
  else
    (⟨today.year + 1, 1, 31⟩, ⟨today.year, 6, 30⟩)

/-- The first member-list row matching a person on last name, first name and
birthday, compared element-wise as pandas `==` does (a null never
matches). -/
def findMember (df : List MemberRow) (row : PersonRow) : Option MemberRow :=
  df.find? (fun m =>
    pdEq m.last_name row.last_name && pdEq m.first_name row.first_name &&
      pdEq m.birthday row.birthday)

/-- The per-row function `update_club_membership_expire` of
`PersonContainer_py`: a person found in the member list takes the list's
expiry, or the current timeframe end when that expiry is null; a person not
found keeps the existing expiry unless it is null or later than the previous
timeframe end, in which case it becomes the previous timeframe end. -/
def update_club_membership_expire (row : PersonRow) (df : Option (List MemberRow))
    (current_timeframe_end previous_timeframe_end : SDate) : Option SDate :=
  match df with
  | some l =>
    match findMember l row with
    | some p =>
      match p.club_membership_expire with
      | none => some current_timeframe_end
      | some v => some v
    | none =>
      match row.club_membership_expire with
      | none => some previous_timeframe_end
      | some v =>
        if previous_timeframe_end.ltb v then some previous_timeframe_end else some v
  | none =>
    match row.club_membership_expire with
    | none => some previous_timeframe_end
    | some v =>
      if previous_timeframe_end.ltb v then some previous_timeframe_end else some v

namespace PersonContainer

/-- `PersonContainer.update_membership`: compute the half-year window from
today and recompute `club_membership_expire` for every loaded person via
`update_club_membership_expire` (the `df.copy()` and `pd.to_datetime`
conversions are identities in the typed model). -/
def update_membership (data : List PersonRow) (df : List MemberRow) (today : SDate) :
    List PersonRow :=
  let w := membershipWindow today
  data.map (fun r =>
    { r with club_membership_expire := update_club_membership_expire r (some df) w.1 w.2 })

end PersonContainer

/-- The membership recompute as worded by the specification (claim C5): with
current-bucket end July 31 of this year and prior-bucket end December 31 of
last year when the month of today is at most 6, else current-bucket end
January 31 of next year and prior-bucket end June 30 of this year; a person
present in the supplied member list gets the expiry of the list, or the
current-bucket end if that expiry is null; a person absent from the list
keeps the existing expiry unless it is null or later than the prior-bucket
end, in which case it becomes the prior-bucket end. -/
def specClubMembershipExpire (today : SDate) (df : List MemberRow) (row : PersonRow) :
    Option SDate :=
  let currentEnd : SDate :=
    if today.month ≤ 6 then ⟨today.year, 7, 31⟩ else ⟨today.year + 1, 1, 31⟩
  let priorEnd : SDate :=
    if today.month ≤ 6 then ⟨today.year - 1, 12, 31⟩ else ⟨today.year, 6, 30⟩
  match findMember df row with
  | some p =>
    match p.club_membership_expire with
    | some v => some v
    | none => some currentEnd
  | none =>
    match row.club_membership_expire with
    | none => some priorEnd
    | some v => if priorEnd.ltb v then some priorEnd else some v

/-! ## Basic lemmas -/

theorem ow_none {α} (old : Option α) : ow old none = old := rfl

theorem ow_some {α} (old : Option α) (v : α) : ow old (some v) = some v := rfl

theorem ow_idem {α} (a b : Option α) : ow (ow a b) b = ow a b := by
  cases b <;> rfl

theorem pdEq_eq_true_iff {α} [DecidableEq α] {a b : Option α} :
    pdEq a b = true ↔ ∃ v, a = some v ∧ b = some v := by
  cases a <;> cases b <;> simp [pdEq, eq_comm]

theorem pdNe_eq_false_iff {α} [DecidableEq α] {a b : Option α} :
    pdNe a b = false ↔ ∃ v, a = some v ∧ b = some v := by
  rw [pdNe, Bool.not_eq_false', pdEq_eq_true_iff]

/-! ## Sample rows used by witnesses and counterexamples -/

/-- A sample date. -/
def wDate : SDate := ⟨1990, 1, 1⟩

/-- A fully populated, not-cancelled registration row. -/
def wReg : RegRow :=
  { course_id := some "7", course_label := some "A", last_name := some "Doe",
    first_name := some "Jane", birthday := some wDate,
    registration_status := some "approved", participation_status := some "passed",
    waiting_position := some 0, confirmation_status := some "confirmed",
    status := some "unchanged" }

/-- A snapshot row matching `wReg` on the keys with identical statuses. -/
def wRegIn : RegInRow :=
  { course_label := some "A", last_name := some "Doe", first_name := some "Jane",
    birthday := some wDate, registration_status := some "approved",
    participation_status := some "passed", waiting_position := some 0 }

/-- A snapshot row with a key not present in `[wReg]`. -/
def wRegInB : RegInRow := { wRegIn with course_label := some "B" }

/-- A cancelled registration row whose waiting position is null. -/
def wCancelled : RegRow :=
  { course_id := some "7", course_label := some "X", last_name := some "Doe",
    first_name := some "Jane", birthday := some wDate,
    registration_status := some "cancelled", participation_status := some "passed",
    waiting_position := none, confirmation_status := some "pending",
    status := some "unchanged" }

/-- The existing course row of the C6 scenario. -/
def wCourse : CourseRow :=
  { emptyCourseRow with id := some "1", label := some "C",
                        registration_end := some ⟨2024, 1, 1⟩ }

/-- The incoming course row of the C6 scenario: same id, null
registration end, new label. -/
def wCourseIn : CourseRow := { emptyCourseRow with id := some "1", label := some "C2" }

/-- Two courses sharing one label. -/
def wCourseL1 : CourseRow := { emptyCourseRow with id := some "10", label := some "L" }

/-- Second course with the same label. -/
def wCourseL2 : CourseRow := { emptyCourseRow with id := some "20", label := some "L" }

/-- A registration pointing at the shared label. -/
def wRegL : RegRow := { wReg with course_label := some "L" }

/-- A registration row with status `removed`. -/
def wRemoved : RegRow := { wReg with status := some "removed" }

/-- A registration row with an out-of-range confirmation status. -/
def wWeird : RegRow := { wReg with confirmation_status := some "xyz", status := some "added" }

/-- A merged registration row with null update cells. -/
def wRegMerged : RegMergedRow := { row := wReg, ru := none, pu := none, wu := none, tag := .both }

/-- A merged course row with a fully null update side. -/
def wCourseMerged : CourseMergedRow := { row := wCourse, up := emptyCourseRow, tag := .both }

/-- An all-null license snapshot row. -/
def wLicNone : LicenseRow :=
  { last_name := none, first_name := none, birthday := none, phone := none,
    mobile := none, mail := none, street := none, postalcode := none, city := none,
    license_category := none, license_type := none, license_id := none,
    license_bvv_id := none, license_since := none, license_expire := none, club := none }

/-- A merged person row with a fully null update side. -/
def wPersonMerged : PersonMergedRow :=
  { row :=
    { last_name := some "Doe", first_name := some "Jane", birthday := some wDate,
      sex := none, street := none, postalcode := none, city := none,
      phone := some "123", mobile := none, mail := none, license_category := none,
      license_type := none, license_id := none, license_bvv_id := none,
      license_since := none, license_expire := none, club := none,
      club_membership_expire := none, club_team := none, wants_higher_license := none,
      help_count := none, failed_higher_license_count := none },
    up := wLicNone, tag := .both }

/-- A license row with name key and one extra non-null cell. -/
def wLicA : LicenseRow :=
  { wLicNone with last_name := some "Doe", first_name := some "Jane",
                  birthday := some wDate, phone := some "123" }

/-- A license row with the same dedup key as `wLicA` but fewer non-null
cells. -/
def wLicB : LicenseRow :=
  { wLicNone with last_name := some "Doe", first_name := some "Jane",
                  birthday := some wDate }

/-- A snapshot carrying only the name columns (no `course_label`). -/
def wBadRegSnap : RegSnap := { cols := ["last_name", "first_name", "birthday"], rows := [wRegIn] }

/-- A course snapshot without an `id` column. -/
def wBadCourseSnap : CourseSnap := { cols := ["label"], rows := [wCourseIn] }

/-! ## Claim theorems -/

/-- C3 (monotonic overwrite): in every update merge (courses, persons,
registrations), for every existing row matched by key with an incoming row
and for every updatable column whose incoming value is null, the merged
value of that column equals the pre-existing value — a null incoming cell
never erases existing data. -/
theorem c3_monotonic_overwrite :
    (∀ mr : RegMergedRow, mr.tag = .both →
      (mr.ru = none →
        (regApplyUpdates mr).row.registration_status = mr.row.registration_status) ∧
      (mr.pu = none →
        (regApplyUpdates mr).row.participation_status = mr.row.participation_status) ∧
      (mr.wu = none →
        (regApplyUpdates mr).row.waiting_position = mr.row.waiting_position)) ∧
    (∀ mc : CourseMergedRow, mc.tag = .both →
      (mc.up.district = none → (courseApplyUpdates mc).row.district = mc.row.district) ∧
      (mc.up.label = none → (courseApplyUpdates mc).row.label = mc.row.label) ∧
      (mc.up.type = none → (courseApplyUpdates mc).row.type = mc.row.type) ∧
      (mc.up.date_start = none → (courseApplyUpdates mc).row.date_start = mc.row.date_start) ∧
      (mc.up.date_end = none → (courseApplyUpdates mc).row.date_end = mc.row.date_end) ∧
      (mc.up.license_category = none →
        (courseApplyUpdates mc).row.license_category = mc.row.license_category) ∧
      (mc.up.license_type = none →
        (courseApplyUpdates mc).row.license_type = mc.row.license_type) ∧
      (mc.up.registration_start = none →
        (courseApplyUpdates mc).row.registration_start = mc.row.registration_start) ∧
      (mc.up.registration_end = none →
        (courseApplyUpdates mc).row.registration_end = mc.row.registration_end) ∧
      (mc.up.reregistration_end = none →
        (courseApplyUpdates mc).row.reregistration_end = mc.row.reregistration_end) ∧
      (mc.up.deregistration_end = none →
        (courseApplyUpdates mc).row.deregistration_end = mc.row.deregistration_end) ∧
      (mc.up.free_space = none → (courseApplyUpdates mc).row.free_space = mc.row.free_space) ∧
      (mc.up.granted_space = none →
        (courseApplyUpdates mc).row.granted_space = mc.row.granted_space) ∧
      (mc.up.waiting_count = none →
        (courseApplyUpdates mc).row.waiting_count = mc.row.waiting_count) ∧
      (mc.up.city = none → (courseApplyUpdates mc).row.city = mc.row.city) ∧
      (mc.up.address = none → (courseApplyUpdates mc).row.address = mc.row.address) ∧
      (mc.up.remark = none → (courseApplyUpdates mc).row.remark = mc.row.remark) ∧
      (mc.up.contact_name = none →
        (courseApplyUpdates mc).row.contact_name = mc.row.contact_name) ∧
      (mc.up.contact_mail = none →
        (courseApplyUpdates mc).row.contact_mail = mc.row.contact_mail) ∧
      (mc.up.contact_phone = none →
        (courseApplyUpdates mc).row.contact_phone = mc.row.contact_phone) ∧
      (mc.up.contact_mobile = none →
        (courseApplyUpdates mc).row.contact_mobile = mc.row.contact_mobile) ∧
      (mc.up.management_reminder_count = none →
        (courseApplyUpdates mc).row.management_reminder_count =
          mc.row.management_reminder_count) ∧
      (mc.up.player_reminder_count = none →
        (courseApplyUpdates mc).row.player_reminder_count = mc.row.player_reminder_count)) ∧
    (∀ mp : PersonMergedRow, mp.tag = .both →
      (mp.up.phone = none → (personApplyUpdates mp).row.phone = mp.row.phone) ∧
      (mp.up.mobile = none → (personApplyUpdates mp).row.mobile = mp.row.mobile) ∧
      (mp.up.mail = none → (personApplyUpdates mp).row.mail = mp.row.mail) ∧
      (mp.up.street = none → (personApplyUpdates mp).row.street = mp.row.street) ∧
      (mp.up.postalcode = none → (personApplyUpdates mp).row.postalcode = mp.row.postalcode) ∧
      (mp.up.city = none → (personApplyUpdates mp).row.city = mp.row.city) ∧
      (mp.up.license_category = none →
        (personApplyUpdates mp).row.license_category = mp.row.license_category) ∧
      (mp.up.license_type = none →
        (personApplyUpdates mp).row.license_type = mp.row.license_type) ∧
      (mp.up.license_id = none → (personApplyUpdates mp).row.license_id = mp.row.license_id) ∧
      (mp.up.license_bvv_id = none →
        (personApplyUpdates mp).row.license_bvv_id = mp.row.license_bvv_id) ∧
      (mp.up.license_since = none →
        (personApplyUpdates mp).row.license_since = mp.row.license_since) ∧
      (mp.up.license_expire = none →
        (personApplyUpdates mp).row.license_expire = mp.row.license_expire) ∧
      (mp.up.club = none → (personApplyUpdates mp).row.club = mp.row.club)) := by
  refine ⟨fun mr _ => ⟨?_, ?_, ?_⟩,
          fun mc _ => ⟨?_, ?_, ?_, ?_, ?_, ?_, ?_, ?_, ?_, ?_, ?_, ?_, ?_, ?_, ?_, ?_, ?_,
                       ?_, ?_, ?_, ?_, ?_, ?_⟩,
          fun mp _ => ⟨?_, ?_, ?_, ?_, ?_, ?_, ?_, ?_, ?_, ?_, ?_, ?_, ?_⟩⟩ <;>
    (intro h; simp [regApplyUpdates, courseApplyUpdates, personApplyUpdates, h, ow])

/-- Witness for C3 at concrete merged rows with null incoming cells. -/
theorem c3_monotonic_overwrite_witness :
    (regApplyUpdates wRegMerged).row.waiting_position = wRegMerged.row.waiting_position ∧
    (courseApplyUpdates wCourseMerged).row.registration_end =
      wCourseMerged.row.registration_end ∧
    (personApplyUpdates wPersonMerged).row.phone = wPersonMerged.row.phone :=
  ⟨(c3_monotonic_overwrite.1 wRegMerged rfl).2.2 rfl,
   ((c3_monotonic_overwrite.2.1 wCourseMerged rfl).2.2.2.2.2.2.2.2.1) rfl,
   (c3_monotonic_overwrite.2.2 wPersonMerged rfl).1 rfl⟩

/-- C10 (persistence invariant): `RegistrationContainer.save` first drops
every row with status `removed`, resets the status of every remaining row to
`unchanged` and forces any out-of-range confirmation status to `pending`;
hence a persisted snapshot never contains a `removed` row, a status other
than `unchanged`, or an unexpected confirmation status, and every persisted
row is the normalization of a non-removed dataset row. -/
theorem c10_save_invariant :
    ∀ (data : List RegRow) (r : RegRow), r ∈ RegistrationContainer.save data →
      r.status = some "unchanged" ∧
      (r.confirmation_status = some "confirmed" ∨ r.confirmation_status = some "denied" ∨
        r.confirmation_status = some "pending") ∧
      ∃ p ∈ data, ¬ p.status = some "removed" ∧ r = RegistrationContainer.saveRow p := by
  intro data r hr
  unfold RegistrationContainer.save at hr
  rw [List.mem_map] at hr
  obtain ⟨p, hp, rfl⟩ := hr
  rw [List.mem_filter] at hp
  obtain ⟨hpd, hps⟩ := hp
  refine ⟨?_, ?_, p, hpd, by simpa using hps, rfl⟩ <;>
    · simp only [RegistrationContainer.saveRow]
      split <;> simp_all

/-- Witness for C10: the image of a dataset with a removed row, an
out-of-range confirmation status, and a normal row. -/
theorem c10_save_invariant_witness :
    (RegistrationContainer.saveRow wWeird).status = some "unchanged" ∧
    ((RegistrationContainer.saveRow wWeird).confirmation_status = some "confirmed" ∨
      (RegistrationContainer.saveRow wWeird).confirmation_status = some "denied" ∨
      (RegistrationContainer.saveRow wWeird).confirmation_status = some "pending") ∧
    ∃ p ∈ [wReg, wRemoved, wWeird], ¬ p.status = some "removed" ∧
      RegistrationContainer.saveRow wWeird = RegistrationContainer.saveRow p :=
  c10_save_invariant [wReg, wRemoved, wWeird] (RegistrationContainer.saveRow wWeird)
    (by decide)

/-- C8 (schema failure atomicity): an incoming snapshot missing a key column
makes the update fail structurally (the `SchemaError` of the specification,
raised as a `KeyError`/`ValueError` by the source) without producing any
merged result, and the previously held in-memory dataset is unchanged. -/
theorem c8_schema_failure_atomicity :
    (∀ (data : List RegRow) (s : RegSnap), (∃ k ∈ regKeyColumns, k ∉ s.cols) →
      RegistrationContainer.update data s = .error .missingKeyColumn ∧
      RegistrationContainer.runUpdate data s = data) ∧
    (∀ (data : List CourseRow) (s : CourseSnap), "id" ∉ s.cols →
      CourseContainer.update data s = .error .missingKeyColumn ∧
      CourseContainer.runUpdate data s = data) := by
  constructor
  · intro data s ⟨k, hk, hnot⟩
    have hguard : regKeyColumns.all (fun k => s.cols.contains k) = false := by
      rw [Bool.eq_false_iff]
      intro hall
      rw [List.all_eq_true] at hall
      exact hnot (by simpa using hall k hk)
    constructor
    · unfold RegistrationContainer.update
      rw [hguard]
      rfl
    · unfold RegistrationContainer.runUpdate RegistrationContainer.update
      rw [hguard]
      rfl
  · intro data s hnot
    have hguard : s.cols.contains "id" = false := by simpa using hnot
    constructor
    · unfold CourseContainer.update
      rw [hguard]
      rfl
    · unfold CourseContainer.runUpdate CourseContainer.update
      rw [hguard]
      rfl

/-- Witness for C8: snapshots missing a key column leave concrete datasets
untouched for both entities. -/
theorem c8_schema_failure_atomicity_witness :
    (RegistrationContainer.update [wReg] wBadRegSnap = .error .missingKeyColumn ∧
      RegistrationContainer.runUpdate [wReg] wBadRegSnap = [wReg]) ∧
    (CourseContainer.update [wCourse] wBadCourseSnap = .error .missingKeyColumn ∧
      CourseContainer.runUpdate [wCourse] wBadCourseSnap = [wCourse]) :=
  ⟨c8_schema_failure_atomicity.1 [wReg] wBadRegSnap (by decide),
   c8_schema_failure_atomicity.2 [wCourse] wBadCourseSnap (by decide)⟩

/-- C9 counterexample: a course label shared by two courses does not get the
registration dropped; the inner merge repeats the registration once per
matching course, so the dataset ends up with two copies carrying different
course ids — refuting that a multiply-resolving label never leads to an
ambiguous merge. -/
theorem c9_ambiguous_label_counterexample :
    (RegistrationContainer.insert_course_id [wRegL] [wCourseL1, wCourseL2]).length = 2 ∧
    { wRegL with course_id := some "10" } ∈
      RegistrationContainer.insert_course_id [wRegL] [wCourseL1, wCourseL2] ∧
    { wRegL with course_id := some "20" } ∈
      RegistrationContainer.insert_course_id [wRegL] [wCourseL1, wCourseL2] := by
  decide

/-- C9 amended: `insert_course_id` drops every registration whose course
label resolves to no course (every surviving row carries the id of a course
whose label matches it), keeps a registration whose label resolves to a
course with that course id, and — contrary to the claim — a label resolving
to several courses yields one copy of the registration per matching course
rather than being dropped. -/
theorem c9_join_integrity_amended :
    ∀ (data : List RegRow) (courses : List CourseRow),
      (∀ x ∈ RegistrationContainer.insert_course_id data courses,
        ∃ r ∈ data, ∃ c ∈ courses, c.label = r.course_label ∧
          x = { r with course_id := c.id }) ∧
      (∀ r ∈ data, ∀ c ∈ courses, c.label = r.course_label →
        { r with course_id := c.id } ∈ RegistrationContainer.insert_course_id data courses) := by
  intro data courses
  constructor
  · intro x hx
    unfold RegistrationContainer.insert_course_id at hx
    rw [List.mem_flatMap] at hx
    obtain ⟨r, hr, hx⟩ := hx
    rw [List.mem_map] at hx
    obtain ⟨c, hc, rfl⟩ := hx
    rw [List.mem_filter] at hc
    exact ⟨r, hr, c, hc.1, by simpa using hc.2, rfl⟩
  · intro r hr c hc hlabel
    unfold RegistrationContainer.insert_course_id
    rw [List.mem_flatMap]
    refine ⟨r, hr, ?_⟩
    rw [List.mem_map]
    exact ⟨c, by rw [List.mem_filter]; exact ⟨hc, by simpa using hlabel⟩, rfl⟩

/-- Witness for C9 at a concrete registration and course table. -/
theorem c9_join_integrity_amended_witness :
    { wRegL with course_id := some "10" } ∈
      RegistrationContainer.insert_course_id [wRegL] [wCourseL1] :=
  (c9_join_integrity_amended [wRegL] [wCourseL1]).2 wRegL (by decide) wCourseL1 (by decide)
    (by decide)

/-- C6 counterexample: in the scenario of the claim the merged course row
keeps `registration_end` and adopts the new label, but it cannot carry a
lifecycle status `changed` because the course schema
(`CourseContainer.get_data_types`) declares no `status` column at all —
course reconciliation computes no per-row lifecycle status. -/
theorem c6_course_status_counterexample :
    courseColumns.contains "status" = false ∧
    (courseUpdateCore [wCourse] [wCourseIn]).1.map
      (fun r => (r.label, r.registration_end)) =
      [(some "C2", some ⟨2024, 1, 1⟩)] := by
  decide

/-- C6 amended: with the existing course `{id 1, label C, registration_end
2024-01-01}` and an incoming row with the same id, null registration end and
label C2, the merged dataset is exactly the old row with the label replaced
by C2 (`registration_end` kept); the row is matched, not newly added, so the
update returns no new courses — and no lifecycle status exists on course
rows. -/
theorem c6_course_merge_scenario_amended :
    (courseUpdateCore [wCourse] [wCourseIn]).1 = [{ wCourse with label := some "C2" }] ∧
    (courseUpdateCore [wCourse] [wCourseIn]).2 = [] := by
  decide

/-- C2 (code bug evaluation): a cancelled registration whose waiting
position is null is dropped from the `value_counts` multiset (pandas
`dropna`), so an incoming snapshot row that is cell-for-cell identical to it
is not subtracted; the re-tagging step cannot rescue it either (a
`right_only` merge row always has a null `status` cell, so the element-wise
comparison with the cancelled rows fails), and the update classifies the
re-listed row `added`, leaving two rows with that row value instead of one
`unchanged` row. -/
theorem c2_cancelled_relisting_evaluation :
    (regUpdateCore [wCancelled] [regProj wCancelled]).countP
      (fun r => decide (regProj r = regProj wCancelled)) = 2 ∧
    (regUpdateCore [wCancelled] [regProj wCancelled]).any
      (fun r => r.status == some "added") = true := by
  decide

/-- C5 (membership window recompute): `update_membership` recomputes
`club_membership_expire` for every person exactly as the claim words it —
with current-bucket end July 31 of this year and prior-bucket end
December 31 of last year when the month of today is at most 6, else
current-bucket end January 31 of next year and prior-bucket end June 30 of
this year; a person found in the member list gets the expiry of the list, or
the current-bucket end if that expiry is null; a person not found keeps the
existing expiry unless it is null or later than the prior-bucket end, in
which case it becomes the prior-bucket end. -/
theorem c5_membership_window_recompute :
    ∀ (data : List PersonRow) (df : List MemberRow) (today : SDate),
      PersonContainer.update_membership data df today =
        data.map (fun r =>
          { r with club_membership_expire := specClubMembershipExpire today df r }) := by
  intro data df today
  unfold PersonContainer.update_membership
  apply List.map_congr_left
  intro r _
  have h : update_club_membership_expire r (some df) (membershipWindow today).1
      (membershipWindow today).2 = specClubMembershipExpire today df r := by
    unfold update_club_membership_expire specClubMembershipExpire membershipWindow
    by_cases hm : today.month ≤ 6 <;>
      · simp only [hm, if_true, if_false]
        cases hf : findMember df r with
        | none => cases hc : r.club_membership_expire <;> simp [hf, hc]
        | some p => cases hp : p.club_membership_expire <;> simp [hf, hp]
  rw [h]

/-! ## Lemmas about the registration merge -/

theorem mem_removeFirst_of_ne {α} [DecidableEq α] {v m : α} {s : List α} (h : m ≠ v) :
    m ∈ removeFirst v s ↔ m ∈ s := by
  induction s with
  | nil => simp [removeFirst]
  | cons x xs ih =>
    by_cases hx : x = v
    · subst hx
      simp [removeFirst, h]
    · simp [removeFirst, hx, ih]

theorem mem_of_mem_removeFirst {α} [DecidableEq α] {v m : α} {s : List α}
    (h : m ∈ removeFirst v s) : m ∈ s := by
  induction s with
  | nil => simp [removeFirst] at h
  | cons x xs ih =>
    by_cases hx : x = v
    · subst hx
      simp only [removeFirst, if_pos rfl] at h
      exact List.mem_cons_of_mem _ h
    · simp only [removeFirst, if_neg hx, List.mem_cons] at h ⊢
      rcases h with h | h
      · exact Or.inl h
      · exact Or.inr (ih h)

theorem mem_removeFirst_or_eq {α} [DecidableEq α] {v m : α} {s : List α} (h : m ∈ s) :
    m ∈ removeFirst v s ∨ m = v := by
  induction s with
  | nil => cases h
  | cons x xs ih =>
    by_cases hx : x = v
    · subst hx
      rcases List.mem_cons.mp h with h | h
      · exact Or.inr h
      · exact Or.inl (by simpa [removeFirst] using h)
    · rcases List.mem_cons.mp h with h | h
      · exact Or.inl (by simp [removeFirst, hx, h])
      · rcases ih h with ih | ih
        · exact Or.inl (by simp [removeFirst, hx, ih])
        · exact Or.inr ih

theorem mem_subtractCancelled {cs : List RegRow} {s : List RegInRow} {m : RegInRow}
    (h : ∀ c ∈ cs, regProj c ≠ m) (hm : m ∈ s) : m ∈ subtractCancelled cs s := by
  induction cs generalizing s with
  | nil => simpa [subtractCancelled] using hm
  | cons c cs ih =>
    have hstep : m ∈ (if regAllSome (regProj c) then removeFirst (regProj c) s else s) := by
      split
      · exact (mem_removeFirst_of_ne (fun he => h c (List.mem_cons_self c cs) he.symm)).mpr hm
      · exact hm
    simpa [subtractCancelled, List.foldl_cons] using
      ih (fun c' hc' => h c' (List.mem_cons_of_mem _ hc')) hstep

theorem subtractCancelled_subset {cs : List RegRow} {s : List RegInRow} {m : RegInRow}
    (hm : m ∈ subtractCancelled cs s) : m ∈ s := by
  induction cs generalizing s with
  | nil => simpa [subtractCancelled] using hm
  | cons c cs ih =>
    have h1 : m ∈ (if regAllSome (regProj c) then removeFirst (regProj c) s else s) :=
      ih (by simpa [subtractCancelled, List.foldl_cons] using hm)
    revert h1
    split
    · exact mem_of_mem_removeFirst
    · exact id

theorem mem_subtractCancelled_or (cs : List RegRow) {s : List RegInRow} {m : RegInRow}
    (hm : m ∈ s) : m ∈ subtractCancelled cs s ∨ ∃ c ∈ cs, m = regProj c := by
  induction cs generalizing s with
  | nil => exact Or.inl (by simpa [subtractCancelled] using hm)
  | cons c cs ih =>
    have hstep : m ∈ (if regAllSome (regProj c) then removeFirst (regProj c) s else s) ∨
        m = regProj c := by
      split
      · exact mem_removeFirst_or_eq hm
      · exact Or.inl hm
    rcases hstep with hstep | hstep
    · rcases ih hstep with h | ⟨c', hc', he⟩
      · exact Or.inl (by simpa [subtractCancelled, List.foldl_cons] using h)
      · exact Or.inr ⟨c', List.mem_cons_of_mem _ hc', he⟩
    · exact Or.inr ⟨c, List.mem_cons_self c cs, hstep⟩

theorem regMerge_cases {left : List RegRow} {right : List RegInRow} {mr : RegMergedRow}
    (h : mr ∈ regMerge left right) :
    (∃ l ∈ left, mr = ⟨l, none, none, none, .leftOnly⟩) ∨
    (∃ l ∈ left, ∃ m ∈ right, regInKey m = regKey l ∧
      mr = ⟨l, m.registration_status, m.participation_status, m.waiting_position, .both⟩) ∨
    (∃ m ∈ right,
      mr = ⟨regRightRow m, m.registration_status, m.participation_status, m.waiting_position,
        .rightOnly⟩) := by
  unfold regMerge at h
  rw [List.mem_append] at h
  rcases h with h | h
  · rw [List.mem_flatMap] at h
    obtain ⟨l, hl, hin⟩ := h
    rcases hms : regMatches right l with _ | ⟨m0, ms⟩
    · rw [hms] at hin
      simp only [List.mem_singleton] at hin
      exact Or.inl ⟨l, hl, hin⟩
    · rw [hms] at hin
      rw [List.mem_map] at hin
      obtain ⟨m, hm, he⟩ := hin
      have hm' : m ∈ regMatches right l := hms ▸ hm
      rw [regMatches, List.mem_filter] at hm'
      exact Or.inr (Or.inl ⟨l, hl, m, hm'.1, by simpa using hm'.2, he.symm⟩)
  · rw [List.mem_map] at h
    obtain ⟨m, hm, he⟩ := h
    rw [List.mem_filter] at hm
    exact Or.inr (Or.inr ⟨m, hm.1, he.symm⟩)

theorem regMerge_mem_both {left : List RegRow} {right : List RegInRow} {l : RegRow}
    {m : RegInRow} (hl : l ∈ left) (hm : m ∈ right) (hk : regInKey m = regKey l) :
    (⟨l, m.registration_status, m.participation_status, m.waiting_position, .both⟩ :
      RegMergedRow) ∈ regMerge left right := by
  unfold regMerge
  apply List.mem_append_left
  rw [List.mem_flatMap]
  refine ⟨l, hl, ?_⟩
  have hmm : m ∈ regMatches right l := by
    rw [regMatches, List.mem_filter]
    exact ⟨hm, by simpa using hk⟩
  rcases hms : regMatches right l with _ | ⟨m0, ms⟩
  · rw [hms] at hmm
    cases hmm
  · rw [hms] at hmm
    exact List.mem_map_of_mem _ hmm

theorem regMerge_covers_left {left : List RegRow} (right : List RegInRow) {l : RegRow}
    (hl : l ∈ left) : ∃ mr ∈ regMerge left right, mr.row = l := by
  rcases hms : regMatches right l with _ | ⟨m0, ms⟩
  · refine ⟨⟨l, none, none, none, .leftOnly⟩, ?_, rfl⟩
    unfold regMerge
    apply List.mem_append_left
    rw [List.mem_flatMap]
    exact ⟨l, hl, by rw [hms]; simp⟩
  · have hm0 : m0 ∈ regMatches right l := hms ▸ List.mem_cons_self m0 ms
    rw [regMatches, List.mem_filter] at hm0
    exact ⟨⟨l, m0.registration_status, m0.participation_status, m0.waiting_position, .both⟩,
      regMerge_mem_both hl hm0.1 (by simpa using hm0.2), rfl⟩

theorem regMerge_covers_right (left : List RegRow) {right : List RegInRow} {m : RegInRow}
    (hm : m ∈ right) : ∃ mr ∈ regMerge left right, regKey mr.row = regInKey m := by
  by_cases hex : ∃ l ∈ left, regKey l = regInKey m
  · obtain ⟨l, hl, hk⟩ := hex
    exact ⟨⟨l, m.registration_status, m.participation_status, m.waiting_position, .both⟩,
      regMerge_mem_both hl hm hk.symm, hk⟩
  · refine ⟨⟨regRightRow m, m.registration_status, m.participation_status, m.waiting_position,
      .rightOnly⟩, ?_, rfl⟩
    unfold regMerge
    apply List.mem_append_right
    rw [List.mem_map]
    refine ⟨m, ?_, rfl⟩
    rw [List.mem_filter]
    refine ⟨hm, ?_⟩
    have hany : left.any (fun l => decide (regKey l = regInKey m)) = false := by
      rw [List.any_eq_false]
      intro l hl
      simp only [decide_eq_true_eq]
      exact fun he => hex ⟨l, hl, he⟩
    simp [hany]

theorem regPipelineRow_key (cs : List RegRow) (mr : RegMergedRow) :
    regKey (regPipelineRow cs mr) = regKey mr.row := by
  unfold regPipelineRow regSetStatus regSetConfirmation regReflag regApplyUpdates regKey
  split_ifs <;> rfl

theorem regPipelineRow_status (cs : List RegRow) (mr : RegMergedRow) :
    (regPipelineRow cs mr).status = some "added" ∨
    (regPipelineRow cs mr).status = some "changed" ∨
    (regPipelineRow cs mr).status = some "unchanged" ∨
    (regPipelineRow cs mr).status = some "removed" := by
  unfold regPipelineRow regSetStatus
  split_ifs <;> simp

/-- C4 (no-loss key invariant): every key tuple present in the existing
registration dataset or in the incoming snapshot appears at least once in
the merged result of the registration update, and every merged row carries
one of the four lifecycle statuses. -/
theorem c4_no_loss_key_invariant :
    (∀ (data : List RegRow) (df : List RegInRow)
        (k : Option String × Option String × Option String × Option SDate),
      ((∃ r ∈ data, regKey r = k) ∨ (∃ m ∈ df, regInKey m = k)) →
      ∃ r ∈ regUpdateCore data df, regKey r = k) ∧
    (∀ (data : List RegRow) (df : List RegInRow), ∀ r ∈ regUpdateCore data df,
      r.status = some "added" ∨ r.status = some "changed" ∨
        r.status = some "unchanged" ∨ r.status = some "removed") := by
  constructor
  · intro data df k h
    simp only [regUpdateCore]
    rcases h with ⟨r, hr, hk⟩ | ⟨m, hm, hk⟩
    · by_cases hc : r.registration_status = some "cancelled"
      · refine ⟨{ r with status := some "unchanged" }, ?_, hk⟩
        exact List.mem_append_right _
          (List.mem_map_of_mem _ (List.mem_filter.mpr ⟨hr, by simp [hc]⟩))
      · have hrL : r ∈ data.filter
            (fun r => !decide (r.registration_status = some "cancelled")) :=
          List.mem_filter.mpr ⟨hr, by simp [hc]⟩
        obtain ⟨mr, hmr, hrow⟩ := regMerge_covers_left
          (subtractCancelled
            (data.filter (fun r => decide (r.registration_status = some "cancelled"))) df) hrL
        refine ⟨regPipelineRow _ mr, List.mem_append_left _ (List.mem_map_of_mem _ hmr), ?_⟩
        rw [regPipelineRow_key, hrow, hk]
    · rcases mem_subtractCancelled_or
        (data.filter (fun r => decide (r.registration_status = some "cancelled"))) hm with
        hdf1 | ⟨c, hc, he⟩
      · obtain ⟨mr, hmr, hkey⟩ := regMerge_covers_right
          (data.filter (fun r => !decide (r.registration_status = some "cancelled"))) hdf1
        refine ⟨regPipelineRow _ mr, List.mem_append_left _ (List.mem_map_of_mem _ hmr), ?_⟩
        rw [regPipelineRow_key, hkey, hk]
      · refine ⟨{ c with status := some "unchanged" }, ?_, ?_⟩
        · exact List.mem_append_right _ (List.mem_map_of_mem _ hc)
        · show regKey { c with status := some "unchanged" } = k
          rw [← hk, he]
          rfl
  · intro data df r hr
    simp only [regUpdateCore] at hr
    rw [List.mem_append] at hr
    rcases hr with hr | hr
    · rw [List.mem_map] at hr
      obtain ⟨mr, _, rfl⟩ := hr
      exact regPipelineRow_status _ mr
    · rw [List.mem_map] at hr
      obtain ⟨c, _, rfl⟩ := hr
      exact Or.inr (Or.inr (Or.inl rfl))

/-- Witness for C4: a key present only in the snapshot appears in the merged
result, and a concrete merged row carries one of the four statuses. -/
theorem c4_no_loss_key_invariant_witness :
    (∃ r ∈ regUpdateCore [wReg] [wRegInB], regKey r = regInKey wRegInB) ∧
    ((regUpdateCore [wReg] [wRegInB]).head?.elim True (fun r =>
      r.status = some "added" ∨ r.status = some "changed" ∨
        r.status = some "unchanged" ∨ r.status = some "removed")) := by
  constructor
  · exact c4_no_loss_key_invariant.1 [wReg] [wRegInB] (regInKey wRegInB)
      (Or.inr ⟨wRegInB, by decide, rfl⟩)
  · cases hh : (regUpdateCore [wReg] [wRegInB]).head? with
    | none => exact trivial
    | some r =>
      exact c4_no_loss_key_invariant.2 [wReg] [wRegInB] r (List.mem_of_mem_head? hh)

theorem regReflag_row (cs : List RegRow) (x : RegMergedRow) :
    (regReflag cs x).row = x.row := by
  unfold regReflag
  split_ifs <;> rfl

theorem regReflag_tag_of_both (cs : List RegRow) {x : RegMergedRow} (h : x.tag = .both) :
    (regReflag cs x).tag = .both := by
  unfold regReflag
  split_ifs <;> simp [h]

theorem regSetConfirmation_of_both {x : RegMergedRow} (h : x.tag = .both) :
    regSetConfirmation x = x := by
  unfold regSetConfirmation
  rw [if_neg]
  simp [h]

theorem regRow_set_status_eq {r : RegRow} (h : r.status = some "unchanged") :
    ({ r with status := some "unchanged" } : RegRow) = r := by
  cases r
  simp_all

/-- On a merge row tagged `both`, the pipeline keeps the overwritten data
cells and assigns status `changed` or `unchanged` depending on the recorded
change condition; the re-flagging and confirmation steps do not alter such a
row. -/
theorem regPipeline_both_eq (cs : List RegRow) {mr : RegMergedRow} (htag : mr.tag = .both) :
    regPipelineRow cs mr =
      { (regApplyUpdates mr).row with
        status := if regChangedCond mr then some "changed" else some "unchanged" } := by
  have h1 : (regApplyUpdates mr).tag = .both := htag
  have h2 : (regReflag cs (regApplyUpdates mr)).tag = .both := regReflag_tag_of_both cs h1
  unfold regPipelineRow
  rw [regSetConfirmation_of_both h2]
  unfold regSetStatus
  rw [h2, regReflag_row]
  rfl

/-- A merge row present only in the (not-cancelled) dataset is classified
`removed`: the re-flagging step can never fire on it, because every
already-known cancelled row differs from it in `registration_status`. -/
theorem regPipeline_leftOnly_status {cs : List RegRow} {l : RegRow}
    (hl : ¬ l.registration_status = some "cancelled")
    (hcs : ∀ c ∈ cs, c.registration_status = some "cancelled") :
    (regPipelineRow cs ⟨l, none, none, none, .leftOnly⟩).status = some "removed" := by
  have happ : regApplyUpdates ⟨l, none, none, none, .leftOnly⟩ =
      ⟨l, none, none, none, .leftOnly⟩ := rfl
  have hany : cs.any
      (fun c => decide (c = (⟨l, none, none, none, .leftOnly⟩ : RegMergedRow).row)) = false := by
    rw [List.any_eq_false]
    intro c hc
    simp only [decide_eq_true_eq]
    intro he
    exact hl (he ▸ hcs c hc)
  unfold regPipelineRow
  rw [happ]
  have hrefl : regReflag cs ⟨l, none, none, none, .leftOnly⟩ =
      ⟨l, none, none, none, .leftOnly⟩ := by
    unfold regReflag
    rw [if_neg]
    simp [hany]
  rw [hrefl]
  rfl

/-- A merge row present only in the snapshot is classified `added`: its
`status` cell is null, so the element-wise re-flagging comparison can never
fire on it. -/
theorem regPipeline_rightOnly_status (cs : List RegRow) (m : RegInRow)
    (u1 : Option String) (u2 : Option String) (u3 : Option Int) :
    (regPipelineRow cs ⟨regRightRow m, u1, u2, u3, .rightOnly⟩).status = some "added" := by
  have hsome : regRowAllSome (regApplyUpdates ⟨regRightRow m, u1, u2, u3, .rightOnly⟩).row =
      false := by
    simp [regRowAllSome, regApplyUpdates, regRightRow]
  unfold regPipelineRow
  have hrefl : regReflag cs (regApplyUpdates ⟨regRightRow m, u1, u2, u3, .rightOnly⟩) =
      regApplyUpdates ⟨regRightRow m, u1, u2, u3, .rightOnly⟩ := by
    unfold regReflag
    rw [if_neg]
    simp [hsome]
  rw [hrefl]
  have htag : (regSetConfirmation
      (regApplyUpdates ⟨regRightRow m, u1, u2, u3, .rightOnly⟩)).tag = .rightOnly := by
    unfold regSetConfirmation
    split_ifs <;> rfl
  unfold regSetStatus
  simp [htag]

theorem regPipeline_both_unchanged_eq (cs : List RegRow) (mr : RegMergedRow)
    (htag : mr.tag = .both) (hch : regChangedCond mr = false) :
    regPipelineRow cs mr = { (regApplyUpdates mr).row with status := some "unchanged" } := by
  rw [regPipeline_both_eq cs htag, hch]
  rfl

theorem regPipeline_both_changed_eq (cs : List RegRow) (mr : RegMergedRow)
    (htag : mr.tag = .both) (hch : regChangedCond mr = true) :
    regPipelineRow cs mr = { (regApplyUpdates mr).row with status := some "changed" } := by
  rw [regPipeline_both_eq cs htag, hch]
  rfl

/-- A cancelled dataset row always reappears, status reset to `unchanged`,
in the result of the registration update. -/
theorem regUpdateCore_mem_cancelled {D : List RegRow} (df : List RegInRow) {c : RegRow}
    (hc : c ∈ D) (hreg : c.registration_status = some "cancelled") :
    ({ c with status := some "unchanged" } : RegRow) ∈ regUpdateCore D df := by
  simp only [regUpdateCore]
  apply List.mem_append_right
  exact List.mem_map_of_mem _ (List.mem_filter.mpr ⟨hc, by simp [hreg]⟩)

/-- The core stability argument: a dataset row with status `unchanged` whose
comparison columns agree (non-null) with a snapshot row of the same key, and
whose waiting position already absorbs that snapshot row's waiting position,
is reproduced bit-for-bit by the registration update. -/
theorem regUpdateCore_mem_of_unchanged_pair {D : List RegRow} {df : List RegInRow}
    {r : RegRow} {m : RegInRow} (v p : String)
    (hrD : r ∈ D) (hmdf : m ∈ df) (hv : v ≠ "cancelled")
    (hr_reg : r.registration_status = some v) (hm_reg : m.registration_status = some v)
    (hr_part : r.participation_status = some p) (hm_part : m.participation_status = some p)
    (hr_wait : ∃ w0, r.waiting_position = ow w0 m.waiting_position)
    (hr_stat : r.status = some "unchanged")
    (hkey : regInKey m = regKey r) :
    r ∈ regUpdateCore D df := by
  simp only [regUpdateCore]
  apply List.mem_append_left
  have hrL : r ∈ D.filter (fun x => !decide (x.registration_status = some "cancelled")) :=
    List.mem_filter.mpr ⟨hrD, by simp [hr_reg, hv]⟩
  have hCs : ∀ c ∈ D.filter (fun x => decide (x.registration_status = some "cancelled")),
      regProj c ≠ m := by
    intro c hc he
    have hcreg : c.registration_status = some "cancelled" := by
      simpa using (List.mem_filter.mp hc).2
    have hcm : c.registration_status = m.registration_status :=
      congrArg RegInRow.registration_status he
    rw [hcreg, hm_reg] at hcm
    exact hv (Option.some.inj hcm).symm
  have hmdf2 : m ∈ subtractCancelled
      (D.filter (fun x => decide (x.registration_status = some "cancelled"))) df :=
    mem_subtractCancelled hCs hmdf
  have hmr2 := regMerge_mem_both hrL hmdf2 hkey
  refine List.mem_map.mpr
    ⟨⟨r, m.registration_status, m.participation_status, m.waiting_position, .both⟩, hmr2, ?_⟩
  have hch2 : regChangedCond
      ⟨r, m.registration_status, m.participation_status, m.waiting_position, .both⟩ = false := by
    simp [regChangedCond, hr_part, hm_part, hr_reg, hm_reg, hr_stat, pdNe, pdEq]
  rw [regPipeline_both_unchanged_eq _ _ rfl hch2]
  obtain ⟨w0, hw0⟩ := hr_wait
  have happly : (regApplyUpdates
      ⟨r, m.registration_status, m.participation_status, m.waiting_position, .both⟩).row = r := by
    show ({ r with
        registration_status := ow r.registration_status m.registration_status,
        participation_status := ow r.participation_status m.participation_status,
        waiting_position := ow r.waiting_position m.waiting_position } : RegRow) = r
    rw [hm_reg, hr_reg, hm_part, hr_part, hw0, ow_idem, ← hw0]
    rw [show ow (some v) (some v) = some v from rfl,
        show ow (some p) (some p) = some p from rfl, ← hr_reg, ← hr_part]
  rw [happly]
  exact regRow_set_status_eq hr_stat

/-- C1 counterexample: with the dataset produced by one update, a second
update with the same snapshot classifies a row dropped by the portal
`removed` again (not `unchanged`), and it rewrites the `added` status of the
newly added row — so the second run neither classifies every row `unchanged`
nor leaves the rows bit-for-bit unmodified. -/
theorem c1_idempotency_counterexample :
    (regUpdateCore (regUpdateCore [wReg] [wRegInB]) [wRegInB]).any
      (fun r => r.status != some "unchanged") = true ∧
    (regUpdateCore [wReg] [wRegInB]).countP (fun r => r.status == some "added") = 1 ∧
    (regUpdateCore (regUpdateCore [wReg] [wRegInB]) [wRegInB]).countP
      (fun r => r.status == some "added") = 0 := by
  decide

/-- C1 amended: reconciliation is idempotent only on its `unchanged` rows —
every row the first update classifies `unchanged` is present bit-for-bit
unmodified (hence classified `unchanged` again) in the result of a second
update with the same snapshot; rows classified `added`, `changed` or
`removed` by the first update are re-labelled or re-derived by the second
run, so full idempotency fails (see the counterexample). -/
theorem c1_unchanged_rows_stable :
    ∀ (data : List RegRow) (df : List RegInRow) (r : RegRow),
      r ∈ regUpdateCore data df → r.status = some "unchanged" →
      r ∈ regUpdateCore (regUpdateCore data df) df := by
  intro data df r hrD1 hst
  have hr := hrD1
  simp only [regUpdateCore] at hr
  rw [List.mem_append] at hr
  rcases hr with hr | hr
  · rw [List.mem_map] at hr
    obtain ⟨mr, hmr, rfl⟩ := hr
    rcases regMerge_cases hmr with ⟨l, hl, rfl⟩ | ⟨l, hl, m, hm, hk, rfl⟩ | ⟨m, hm, rfl⟩
    · exfalso
      have hlnc : ¬ l.registration_status = some "cancelled" := by
        simpa using (List.mem_filter.mp hl).2
      have hCs : ∀ c ∈ data.filter
          (fun x => decide (x.registration_status = some "cancelled")),
          c.registration_status = some "cancelled" := fun c hc => by
        simpa using (List.mem_filter.mp hc).2
      rw [regPipeline_leftOnly_status hlnc hCs] at hst
      simp at hst
    · cases hch : regChangedCond
        ⟨l, m.registration_status, m.participation_status, m.waiting_position, .both⟩ with
      | true =>
        exfalso
        rw [regPipeline_both_changed_eq _ _ rfl hch] at hst
        simp at hst
      | false =>
        have hne_p : pdNe l.participation_status m.participation_status = false := by
          by_contra hne
          rw [Bool.not_eq_false] at hne
          simp [regChangedCond, hne] at hch
        have hne_r : pdNe l.registration_status m.registration_status = false := by
          by_contra hne
          rw [Bool.not_eq_false] at hne
          simp [regChangedCond, hne] at hch
        obtain ⟨p, hlp, hmp⟩ := pdNe_eq_false_iff.mp hne_p
        obtain ⟨v, hlr, hmrg⟩ := pdNe_eq_false_iff.mp hne_r
        have hlnc : ¬ l.registration_status = some "cancelled" := by
          simpa using (List.mem_filter.mp hl).2
        have hvnc : v ≠ "cancelled" := fun he => hlnc (by rw [hlr, he])
        have hRe := regPipeline_both_unchanged_eq
          (data.filter (fun x => decide (x.registration_status = some "cancelled")))
          ⟨l, m.registration_status, m.participation_status, m.waiting_position, .both⟩
          rfl hch
        apply regUpdateCore_mem_of_unchanged_pair v p hrD1 (subtractCancelled_subset hm) hvnc
        · rw [hRe]
          show ow l.registration_status m.registration_status = some v
          rw [hmrg]
          rfl
        · exact hmrg
        · rw [hRe]
          show ow l.participation_status m.participation_status = some p
          rw [hmp]
          rfl
        · exact hmp
        · exact ⟨l.waiting_position, by rw [hRe]; rfl⟩
        · rw [hRe]
        · rw [regPipelineRow_key]
          exact hk
    · exfalso
      rw [regPipeline_rightOnly_status] at hst
      simp at hst
  · rw [List.mem_map] at hr
    obtain ⟨c, hc, rfl⟩ := hr
    have hcreg : c.registration_status = some "cancelled" := by
      simpa using (List.mem_filter.mp hc).2
    have h2 := regUpdateCore_mem_cancelled df hrD1
      (show ({ c with status := some "unchanged" } : RegRow).registration_status =
        some "cancelled" from hcreg)
    rwa [regRow_set_status_eq rfl] at h2

/-- Witness for C1 at a dataset whose single row is matched unchanged by the
snapshot. -/
theorem c1_unchanged_rows_stable_witness :
    RegistrationContainer.saveRow wReg ∈
      regUpdateCore (regUpdateCore [wReg] [wRegIn]) [wRegIn] :=
  c1_unchanged_rows_stable [wReg] [wRegIn] (RegistrationContainer.saveRow wReg)
    (by decide) (by decide)

/-! ## Lemmas about deduplication -/

theorem dedupLe_trans : ∀ a b c : LicenseRow × Nat,
    dedupLe a b → dedupLe b c → dedupLe a c := by
  intro a b c hab hbc
  simp only [dedupLe, decide_eq_true_eq] at hab hbc ⊢
  exact le_trans hab hbc

theorem dedupLe_total : ∀ a b : LicenseRow × Nat, dedupLe a b || dedupLe b a := by
  intro a b
  simp only [dedupLe, Bool.or_eq_true, decide_eq_true_eq]
  exact le_total _ _

/-- On two rows sharing the dedup key, the sort comparator orders purely by
descending non-null count. -/
theorem dedupLe_iff_of_key_eq {a b : LicenseRow × Nat} (h : dedupKey a.1 = dedupKey b.1) :
    (dedupLe a b = true) ↔ b.2 ≤ a.2 := by
  obtain ⟨h1, h2, h3⟩ : a.1.last_name = b.1.last_name ∧ a.1.first_name = b.1.first_name ∧
      a.1.birthday = b.1.birthday := by
    simpa [dedupKey, Prod.ext_iff] using h
  simp [dedupLe, sortKey, h1, h2, h3, Prod.Lex.le_iff, lt_irrefl]

theorem perm_pair_cases {α} {l : List α} {x y : α} (h : List.Perm l [x, y]) :
    l = [x, y] ∨ l = [y, x] := by
  have hlen : l.length = 2 := by simpa using h.length_eq
  rcases l with _ | ⟨u, _ | ⟨v, _ | ⟨w, t⟩⟩⟩ <;> simp at hlen
  have hu : u ∈ [x, y] := h.mem_iff.mp (by simp)
  rcases (by simpa using hu : u = x ∨ u = y) with rfl | rfl
  · left
    have h2 : List.Perm [v] [y] := h.cons_inv
    rw [List.perm_singleton.mp h2]
  · right
    have h3 : List.Perm [u, v] [u, x] := h.trans (List.Perm.swap x u []).symm
    have h2 : List.Perm [v] [x] := h3.cons_inv
    rw [List.perm_singleton.mp h2]

theorem dropDupFirst_filter (k : Option String × Option String × Option SDate) :
    ∀ (l : List (LicenseRow × Nat)) (seen : List (Option String × Option String × Option SDate)),
      (dropDupFirst l seen).filter (fun x => decide (dedupKey x.1 = k)) =
        if k ∈ seen then [] else (l.filter (fun x => decide (dedupKey x.1 = k))).take 1 := by
  intro l
  induction l with
  | nil =>
    intro seen
    simp [dropDupFirst]
  | cons x xs ih =>
    intro seen
    by_cases hxk : dedupKey x.1 = k
    · by_cases hmem : dedupKey x.1 ∈ seen
      · rw [show dropDupFirst (x :: xs) seen = dropDupFirst xs seen by
          simp [dropDupFirst, hmem]]
        rw [ih seen]
        rw [if_pos (hxk ▸ hmem)]
        rw [if_pos (hxk ▸ hmem)]
      · rw [show dropDupFirst (x :: xs) seen = x :: dropDupFirst xs (dedupKey x.1 :: seen) by
          simp [dropDupFirst, hmem]]
        rw [if_neg (hxk ▸ hmem)]
        rw [List.filter_cons_of_pos (by simpa using hxk),
            List.filter_cons_of_pos (by simpa using hxk)]
        rw [ih (dedupKey x.1 :: seen)]
        rw [if_pos (by simp [hxk])]
        simp
    · have hfx : (fun y => decide (dedupKey y.1 = k)) x = false := by simpa using hxk
      by_cases hmem : dedupKey x.1 ∈ seen
      · rw [show dropDupFirst (x :: xs) seen = dropDupFirst xs seen by
          simp [dropDupFirst, hmem]]
        rw [ih seen, List.filter_cons_of_neg (by simpa using hxk)]
      · rw [show dropDupFirst (x :: xs) seen = x :: dropDupFirst xs (dedupKey x.1 :: seen) by
          simp [dropDupFirst, hmem]]
        rw [List.filter_cons_of_neg (by simpa using hxk),
            List.filter_cons_of_neg (by simpa using hxk)]
        rw [ih (dedupKey x.1 :: seen)]
        have hkx : ¬ k = dedupKey x.1 := fun he => hxk he.symm
        have : (k ∈ dedupKey x.1 :: seen) ↔ (k ∈ seen) := by
          simp [List.mem_cons, hkx]
        by_cases hks : k ∈ seen
        · rw [if_pos (this.mpr hks), if_pos hks]
        · rw [if_neg (fun hx => hks (this.mp hx)), if_neg hks]

/-- C7 (deduplication determinism): whenever an input table holds exactly two
rows with a given dedup key, `remove_duplicates` keeps exactly one row for
that key: the row with the larger non-null count (fewer null fields)
regardless of which of the two came first, and the earlier row when the
counts tie.  Quantifying over both arrangements of the pair makes the
statement order-independent. -/
theorem c7_dedup_determinism :
    ∀ (df : List LicenseRow) (k : Option String × Option String × Option SDate)
      (a b : LicenseRow),
      df.filter (fun r => decide (dedupKey r = k)) = [a, b] →
      (remove_duplicates df).filter (fun r => decide (dedupKey r = k)) =
        [if countSome a < countSome b then b else a] := by
  intro df k a b hfilter
  have haf : a ∈ df.filter (fun r => decide (dedupKey r = k)) := by rw [hfilter]; simp
  have hbf : b ∈ df.filter (fun r => decide (dedupKey r = k)) := by rw [hfilter]; simp
  have hak : dedupKey a = k := by simpa using (List.mem_filter.mp haf).2
  have hbk : dedupKey b = k := by simpa using (List.mem_filter.mp hbf).2
  have hkeq : dedupKey (a, countSome a).1 = dedupKey (b, countSome b).1 := by
    show dedupKey a = dedupKey b
    rw [hak, hbk]
  have hgf : (df.map (fun r => (r, countSome r))).filter
      (fun x => decide (dedupKey x.1 = k)) = [(a, countSome a), (b, countSome b)] := by
    rw [List.filter_map]
    show List.map (fun r => (r, countSome r))
      (df.filter (fun r => decide (dedupKey r = k))) = _
    rw [hfilter]
    rfl
  set sorted := (df.map (fun r => (r, countSome r))).mergeSort dedupLe with hsorted_def
  have hperm : List.Perm (sorted.filter (fun x => decide (dedupKey x.1 = k)))
      [(a, countSome a), (b, countSome b)] := by
    have h1 := (List.mergeSort_perm (df.map (fun r => (r, countSome r))) dedupLe).filter
      (fun x => decide (dedupKey x.1 = k))
    rw [hgf] at h1
    exact h1
  have hfpair : (sorted.filter (fun x => decide (dedupKey x.1 = k))).Pairwise
      (dedupLe · ·) :=
    (List.sorted_mergeSort dedupLe_trans dedupLe_total _).sublist (List.filter_sublist _)
  have horder : sorted.filter (fun x => decide (dedupKey x.1 = k)) =
      [if countSome a < countSome b then (b, countSome b) else (a, countSome a),
       if countSome a < countSome b then (a, countSome a) else (b, countSome b)] := by
    by_cases hc : countSome a < countSome b
    · rw [if_pos hc, if_pos hc]
      rcases perm_pair_cases hperm with h | h
      · exfalso
        rw [h] at hfpair
        have hle : dedupLe (a, countSome a) (b, countSome b) = true :=
          (List.pairwise_cons.mp hfpair).1 _ (by simp)
        have := (dedupLe_iff_of_key_eq hkeq).mp hle
        omega
      · exact h
    · rw [if_neg hc, if_neg hc]
      have hle : dedupLe (a, countSome a) (b, countSome b) = true :=
        (dedupLe_iff_of_key_eq hkeq).mpr (by omega)
      have hsub0 : List.Sublist [(a, countSome a), (b, countSome b)]
          (df.map (fun r => (r, countSome r))) := by
        rw [← hgf]
        exact List.filter_sublist _
      have hsub1 : List.Sublist [(a, countSome a), (b, countSome b)] sorted :=
        List.pair_sublist_mergeSort dedupLe_trans dedupLe_total hle hsub0
      have hsub2 := hsub1.filter (fun x => decide (dedupKey x.1 = k))
      have hfl : [(a, countSome a), (b, countSome b)].filter
          (fun x => decide (dedupKey x.1 = k)) = [(a, countSome a), (b, countSome b)] := by
        simp [hak, hbk]
      rw [hfl] at hsub2
      have hlen : (sorted.filter (fun x => decide (dedupKey x.1 = k))).length = 2 := by
        simpa using hperm.length_eq
      exact (hsub2.eq_of_length (by rw [hlen]; rfl)).symm
  have hout : (remove_duplicates df).filter (fun r => decide (dedupKey r = k)) =
      ((dropDupFirst sorted []).filter (fun x => decide (dedupKey x.1 = k))).map Prod.fst := by
    simp only [remove_duplicates]
    rw [List.filter_map]
    rfl
  rw [hout, dropDupFirst_filter k sorted [], if_neg (by simp), horder]
  by_cases hc : countSome a < countSome b
  · rw [if_pos hc, if_pos hc, if_pos hc]
    rfl
  · rw [if_neg hc, if_neg hc, if_neg hc]
    rfl

/-- Witness for C7 at a concrete pair: the less complete row listed first is
still discarded in favour of the more complete one. -/
theorem c7_dedup_determinism_witness :
    (remove_duplicates [wLicB, wLicA]).filter
      (fun r => decide (dedupKey r = (some "Doe", some "Jane", some wDate))) = [wLicA] := by
  have h := c7_dedup_determinism [wLicB, wLicA] (some "Doe", some "Jane", some wDate)
    wLicB wLicA (by decide)
  rw [if_pos (by decide)] at h
  exact h
